import Mathlib

/-!
Shallow embedding of `instalooter/_cli/__init__.py` (the `main` entry point of
the InstaLooter command-line interface).

The Python function `main(argv, stream)` parses arguments with docopt, then
runs one of four modes (batch, login, logout, download) inside a
`try/except/else/finally` block.  We embed it as a pure Lean function over:

* `Args`    — the parsed command-line arguments (what docopt produced), plus a
              flag recording whether docopt itself rejected the invocation;
* `Env`     — the outcomes of every external effect the body performs
              (opening the batch file and running the batch, `login(args)`,
              the cookie-file existence test, `get_times_from_cli`,
              `int(args['--num-to-dl'])`, `fs.open_fs`, `looter.download`,
              and `threads_count()`).

The result `MainResult` records the returned exit code together with an
observable trace: which looter was constructed, whether the destination
filesystem was opened and closed, which log lines were emitted, and what the
interrupt handler did.
-/

namespace Instalooter

/-- The class of looter selected by the target-kind dispatch
(`ProfileLooter` / `HashtagLooter` / `PostLooter` in `..looters`). -/
inductive LooterCls
  | ProfileLooter
  | HashtagLooter
  | PostLooter
  deriving DecidableEq, Repr

/-- The looter object constructed at lines 131-141 of the source: the chosen
class, the positional target, and the keyword arguments passed verbatim. -/
structure Looter where
  cls : LooterCls
  target : String
  add_metadata : Bool
  get_videos : Bool
  videos_only : Bool
  jobs : Int
  template : Option String
  dump_json : Bool
  dump_only : Bool
  extended_dump : Bool
  deriving DecidableEq, Repr

/-- A Python exception as far as `main` can distinguish one:
`KeyboardInterrupt` (no `errno` attribute), `ValueError` as raised by
`int(...)` / `get_times_from_cli` / `login` (no `errno` attribute), or any
other `Exception`, which may or may not carry an `errno` attribute. -/
inductive Exc
  | keyboardInterrupt
  | valueError
  | error (errno : Option Int)
  deriving DecidableEq, Repr

/-- The value of `e.errno if hasattr(e, "errno") else None` (line 189). -/
def Exc.errnoAttr : Exc → Option Int
  | .error e => e
  | _ => none

/-- Outcome of an external call: a value, or a raised exception. -/
inductive Res (α : Type)
  | ok (a : α)
  | exc (e : Exc)
  deriving DecidableEq, Repr

/-- Modelled from the spec: the `WARNING_ACTIONS` constant lives in the
`.constants` module, which is not part of the sources here; the CLI only
checks membership (line 79) and then passes the value straight to
`warnings.simplefilter` (line 85), so it is modelled as the standard actions
accepted by `warnings.simplefilter` — in particular `"error"`, which turns
any warning raised inside the `with` block into a raised `UserWarning`. -/
def WARNING_ACTIONS : List String :=
  ["default", "error", "ignore", "always", "module", "once"]

/-- The docopt argument dictionary, with `docoptFail` standing for
`docopt.DocoptExit` being raised, and `warnAction` for `args['-W']`. -/
structure Args where
  docoptFail : Bool
  usage : Bool
  quiet : Bool
  warnAction : String
  batch : Bool
  login : Bool
  logout : Bool
  user : Bool
  hashtag : Bool
  post : Bool
  profile : String
  hashtagName : String
  post_token : String
  username : Option String
  add_metadata : Bool
  get_videos : Bool
  videos_only : Bool
  jobs : Option Int
  template : Option String
  dump_json : Bool
  dump_only : Bool
  extended_dump : Bool
  timeArg : Option String
  num_to_dl : Option String
  newOnly : Bool
  directory : Option String
  traceback : Bool
  deriving DecidableEq, Repr

/-- Outcomes of the external effects performed by the body of `main`. -/
structure Env where
  batchResult : Res Unit
  loginResult : Res Unit
  cookieFileExists : Bool
  logoutResult : Res Unit
  timeParseOk : Bool
  numParseOk : Bool
  cwd : String
  open_fs : Res Unit
  download : Res Nat
  threads_count : Nat
  deriving DecidableEq, Repr

/-- Observable log lines and warnings emitted by `main`. -/
inductive LogEvent
  | downloadedPosts (n : Nat)
  | downloadedPost (n : Nat)
  | terminatingWorkers (count : Nat)
  | loggedOut
  | cookieWarning
  | interruptedMsg
  | fatalError
  deriving DecidableEq, Repr

/-- Trace of the observable actions of the `try` body. -/
structure Trace where
  storeAcquired : Bool
  downloadStarted : Bool
  looter : Option Looter
  openUrl : Option String
  openCreate : Bool
  events : List LogEvent
  deriving DecidableEq, Repr

/-- The empty trace at entry to the `try` block. -/
def Trace.init : Trace :=
  { storeAcquired := false, downloadStarted := false, looter := none,
    openUrl := none, openCreate := false, events := [] }

/-- Result of the `try` body: an early `return code`, or a raised exception
reaching the outer `except (Exception, KeyboardInterrupt)` handler.  Falling
off the end of the suite reaches `else: return 0`, folded here as `.ret 0`. -/
inductive BodyResult
  | ret (code : Int)
  | raised (e : Exc)
  deriving DecidableEq, Repr

/-- Target-kind dispatch, lines 118-128: `user` selects `ProfileLooter` on
`<profile>`, `hashtag` selects `HashtagLooter` on `<hashtag>`, `post` selects
`PostLooter` on `<post_token>`; anything else raises `NotImplementedError`. -/
def dispatchTarget (a : Args) : Option (LooterCls × String) :=
  if a.user then some (.ProfileLooter, a.profile)
  else if a.hashtag then some (.HashtagLooter, a.hashtagName)
  else if a.post then some (.PostLooter, a.post_token)
  else none

/-- The looter construction of lines 131-141, keyword arguments verbatim;
in particular `jobs=int(args['--jobs']) if args['--jobs'] is not None else 16`. -/
def mkLooter (a : Args) (cls : LooterCls) (target : String) : Looter :=
  { cls := cls, target := target,
    add_metadata := a.add_metadata,
    get_videos := a.get_videos,
    videos_only := a.videos_only,
    jobs := match a.jobs with | some j => j | none => 16,
    template := a.template,
    dump_json := a.dump_json,
    dump_only := a.dump_only,
    extended_dump := a.extended_dump }

/-- Line 157: `dest_url = args.get('<directory>') or os.getcwd()`; Python's
`or` falls through to `os.getcwd()` on a missing key, `None` or `""`. -/
def dest_url (a : Args) (e : Env) : String :=
  match a.directory with
  | some d => if d = "" then e.cwd else d
  | none => e.cwd

/-- The suite of the `try` block, lines 87-171.  Modes in source order:
batch (lines 89-93), login (96-106), logout (109-115), then download mode
(117-171).  In the logout mode, `InstaLooter._logout()` (line 111) may raise;
when the cookie file is missing, `warnings.warn('Cookie file not found.')`
(line 114) is governed by the `warnings.simplefilter(args['-W'])` installed
at line 85: under the `"error"` action it raises a `UserWarning` (an
`Exception` without an `errno` attribute), otherwise it merely emits the
warning.  The inner `try/except ValueError` of lines 144-154 returns 1; the
success summary of lines 168-171 logs a plural line for `n > 1`, a singular
line for `n == 1`, and nothing otherwise. -/
def runBody (a : Args) (e : Env) : BodyResult × Trace :=
  let t := Trace.init
  if a.batch then
    match e.batchResult with
    | .ok _ => (.ret 0, t)
    | .exc ex => (.raised ex, t)
  else if a.login then
    match e.loginResult with
    | .ok _ => (.ret 0, t)
    | .exc ex => if ex = .valueError then (.ret 1, t) else (.raised ex, t)
  else if a.logout then
    if e.cookieFileExists then
      match e.logoutResult with
      | .ok _ => (.ret 0, { t with events := t.events ++ [.loggedOut] })
      | .exc ex => (.raised ex, t)
    else if a.warnAction = "error" then
      (.raised (.error none), t)
    else
      (.ret 0, { t with events := t.events ++ [.cookieWarning] })
  else
    match dispatchTarget a with
    | none => (.raised (.error none), t)
    | some (cls, target) =>
      let t := { t with looter := some (mkLooter a cls target) }
      match (if a.username.isSome then e.loginResult else .ok ()) with
      | .exc ex => if ex = .valueError then (.ret 1, t) else (.raised ex, t)
      | .ok _ =>
        if a.timeArg.isSome && !e.timeParseOk then (.ret 1, t)
        else if a.num_to_dl.isSome && !e.numParseOk then (.ret 1, t)
        else
          let t := { t with openUrl := some (dest_url a e), openCreate := true }
          match e.open_fs with
          | .exc ex => (.raised ex, t)
          | .ok _ =>
            let t := { t with storeAcquired := true, downloadStarted := true }
            match e.download with
            | .exc ex => (.raised ex, t)
            | .ok n =>
              let t := { t with events := t.events ++
                (if n > 1 then [LogEvent.downloadedPosts n]
                 else if n = 1 then [LogEvent.downloadedPost n]
                 else []) }
              (.ret 0, t)

/-- The full result of one invocation of `main`. -/
structure MainResult where
  exitCode : Int
  failed : Bool
  bodyError : Option Exc
  storeAcquired : Bool
  closeCalled : Bool
  downloadStarted : Bool
  looter : Option Looter
  openUrl : Option String
  openCreate : Bool
  events : List LogEvent
  threadsCountRead : Bool
  forceJoinCalled : Bool
  deriving DecidableEq, Repr

/-- A `MainResult` for the three early exits before the `try` block
(docopt rejection, `--usage`, unknown `-W` action). -/
def earlyResult (code : Int) (failed : Bool) : MainResult :=
  { exitCode := code, failed := failed, bodyError := none,
    storeAcquired := false, closeCalled := false, downloadStarted := false,
    looter := none, openUrl := none, openCreate := false, events := [],
    threadsCountRead := false, forceJoinCalled := false }

/-- The embedded `main`, lines 42-200.  Early exits: docopt failure returns 1
(lines 62-64), `--usage` returns 0 (67-69), an unknown `-W` action returns 1
(79-82).  Otherwise the `try` body runs; a raised exception reaches the
handler of lines 173-190: it logs, reads `threads_count()`, when nonzero logs
"Terminating N remaining workers..." and calls `threads_force_join()`, then
returns `e.errno` when that attribute is present and not `None`, else 1.
The `finally` of lines 195-200 closes `dest_fs` whenever it was bound,
swallowing any exception from `close()`. -/
def main (a : Args) (e : Env) : MainResult :=
  if a.docoptFail then earlyResult 1 true
  else if a.usage then earlyResult 0 false
  else if !(WARNING_ACTIONS.contains a.warnAction) then earlyResult 1 true
  else
    match runBody a e with
    | (.ret code, t) =>
      { exitCode := code, failed := code != 0, bodyError := none,
        storeAcquired := t.storeAcquired, closeCalled := t.storeAcquired,
        downloadStarted := t.downloadStarted, looter := t.looter,
        openUrl := t.openUrl, openCreate := t.openCreate,
        events := t.events, threadsCountRead := false,
        forceJoinCalled := false }
    | (.raised ex, t) =>
      let count := e.threads_count
      { exitCode := match ex.errnoAttr with | some k => k | none => 1,
        failed := true, bodyError := some ex,
        storeAcquired := t.storeAcquired, closeCalled := t.storeAcquired,
        downloadStarted := t.downloadStarted, looter := t.looter,
        openUrl := t.openUrl, openCreate := t.openCreate,
        events := t.events
          ++ (if ex = .keyboardInterrupt then [LogEvent.interruptedMsg]
              else [LogEvent.fatalError])
          ++ (if count ≠ 0 then [LogEvent.terminatingWorkers count] else []),
        threadsCountRead := true,
        forceJoinCalled := count != 0 }

/-- The download mode of `main`: none of the early exits fire and none of the
batch/login/logout subcommands is selected. -/
def Args.downloadMode (a : Args) : Prop :=
  a.docoptFail = false ∧ a.usage = false ∧
  a.warnAction ∈ WARNING_ACTIONS ∧
  a.batch = false ∧ a.login = false ∧ a.logout = false

/-- The summary lines among the emitted events ("Downloaded n posts." /
"Downloaded 1 post."). -/
def summaryLines (evs : List LogEvent) : List LogEvent :=
  evs.filter fun ev =>
    match ev with
    | .downloadedPosts _ => true
    | .downloadedPost _ => true
    | _ => false

/-- The "Terminating N remaining workers..." lines among the emitted events. -/
def terminatingLines (evs : List LogEvent) : List LogEvent :=
  evs.filter fun ev =>
    match ev with
    | .terminatingWorkers _ => true
    | _ => false

/-- Sample arguments: a plain `instalooter user alice` invocation. -/
def argsDL : Args :=
  { docoptFail := false, usage := false, quiet := false, warnAction := "default",
    batch := false, login := false, logout := false,
    user := true, hashtag := false, post := false,
    profile := "alice", hashtagName := "", post_token := "",
    username := none,
    add_metadata := false, get_videos := false, videos_only := false,
    jobs := none, template := none,
    dump_json := false, dump_only := false, extended_dump := false,
    timeArg := none, num_to_dl := none, newOnly := false,
    directory := none, traceback := false }

/-- Sample environment: every external call succeeds, three posts download. -/
def envOK : Env :=
  { batchResult := .ok (), loginResult := .ok (), cookieFileExists := true,
    logoutResult := .ok (), timeParseOk := true, numParseOk := true,
    cwd := "/home/user", open_fs := .ok (), download := .ok 3,
    threads_count := 0 }

/-- Environment where the download raises an exception whose `errno` is 0. -/
def envErrZero : Env := { envOK with download := .exc (.error (some 0)) }

/-- Environment where the download raises an exception whose `errno` is 5. -/
def envErrFive : Env := { envOK with download := .exc (.error (some 5)) }

/-- Environment where the download raises an exception whose `errno` is -7. -/
def envErrNeg : Env := { envOK with download := .exc (.error (some (-7))) }

/-- Environment where the download is interrupted with 4 workers running. -/
def envKI : Env :=
  { envOK with download := .exc .keyboardInterrupt, threads_count := 4 }

/-- Environment where the download succeeds having downloaded nothing. -/
def envDLZero : Env := { envOK with download := .ok 0 }

/-- Environment where the download succeeds with two downloads. -/
def envDLTwo : Env := { envOK with download := .ok 2 }

/-- Environment where `get_times_from_cli` raises `ValueError`. -/
def envBadTime : Env := { envOK with timeParseOk := false }

/-- Environment without a stored cookie file. -/
def envNoCookie : Env := { envOK with cookieFileExists := false }

/-- Arguments with a (malformed) `--time` option. -/
def argsTime : Args := { argsDL with timeArg := some "bogus:value" }

/-- Arguments with `--jobs 4`. -/
def argsJobs : Args := { argsDL with jobs := some 4 }

/-- Arguments for `instalooter hashtag cats`. -/
def argsHashtag : Args :=
  { argsDL with user := false, hashtag := true, hashtagName := "cats" }

/-- Arguments for `instalooter logout`. -/
def argsLogout : Args := { argsDL with user := false, logout := true }

/-- Arguments for `instalooter logout -W error`. -/
def argsLogoutWError : Args := { argsLogout with warnAction := "error" }

/-- Environment where `InstaLooter._logout()` raises. -/
def envLogoutFail : Env := { envOK with logoutResult := .exc (.error none) }

/-- Arguments with an empty `<directory>` argument. -/
def argsEmptyDir : Args := { argsDL with directory := some "" }

theorem runBody_looter (a : Args) (e : Env)
    (h4 : a.batch = false) (h5 : a.login = false) (h6 : a.logout = false) :
    (runBody a e).2.looter
      = (dispatchTarget a).map fun p => mkLooter a p.1 p.2 := by
  unfold runBody
  simp only [h4, h5, h6, Bool.false_eq_true, if_false]
  repeat' split
  all_goals simp_all [Trace.init]

theorem main_looter (a : Args) (e : Env) (hd : a.downloadMode) :
    (main a e).looter = (dispatchTarget a).map fun p => mkLooter a p.1 p.2 := by
  obtain ⟨h1, h2, h3, h4, h5, h6⟩ := hd
  have hb := runBody_looter a e h4 h5 h6
  unfold main
  rcases hr : runBody a e with ⟨r, t⟩
  rw [hr] at hb
  cases r <;> simp_all

theorem runBody_raised_events (a : Args) (e : Env) (ex : Exc)
    (h : (runBody a e).1 = .raised ex) : (runBody a e).2.events = [] := by
  rcases hr : runBody a e with ⟨r, t⟩
  rw [hr] at h
  unfold runBody at hr
  repeat' split at hr
  all_goals injection hr with hr1 hr2
  all_goals subst hr1
  all_goals subst hr2
  all_goals simp_all [Trace.init]

theorem runBody_ret_code (a : Args) (e : Env) (c : Int)
    (h : (runBody a e).1 = .ret c) : c = 0 ∨ c = 1 := by
  rcases hr : runBody a e with ⟨r, t⟩
  rw [hr] at h
  unfold runBody at hr
  repeat' split at hr
  all_goals injection hr with hr1 hr2
  all_goals subst hr1
  all_goals subst hr2
  all_goals simp_all [Trace.init]

theorem main_close_eq (a : Args) (e : Env) :
    (main a e).closeCalled = (main a e).storeAcquired := by
  unfold main
  repeat' split
  all_goals rfl

theorem main_raised_char (a : Args) (e : Env) (ex : Exc)
    (h : (main a e).bodyError = some ex) :
    (main a e).exitCode
        = (match ex.errnoAttr with | some k => k | none => 1) ∧
      (main a e).threadsCountRead = true ∧
      (main a e).forceJoinCalled = (e.threads_count != 0) ∧
      (main a e).events
        = (if ex = .keyboardInterrupt then [LogEvent.interruptedMsg]
           else [LogEvent.fatalError])
            ++ (if e.threads_count ≠ 0
                then [LogEvent.terminatingWorkers e.threads_count] else []) := by
  have hev : ∀ ex9 : Exc, (runBody a e).1 = .raised ex9 →
      (runBody a e).2.events = [] := runBody_raised_events a e
  revert h
  unfold main
  generalize hr : runBody a e = rt
  rw [hr] at hev
  obtain ⟨r, t⟩ := rt
  intro h
  cases r with
  | ret c =>
    exfalso
    revert h
    repeat' split
    all_goals simp_all [earlyResult]
  | raised ex1 =>
    have ht : t.events = [] := hev ex1 rfl
    by_cases h1 : a.docoptFail = true
    · simp [h1, earlyResult] at h
    by_cases h2 : a.usage = true
    · simp [h1, h2, earlyResult] at h
    by_cases h3 : a.warnAction ∈ WARNING_ACTIONS
    case neg => simp [h1, h2, h3, earlyResult] at h
    have h3b : WARNING_ACTIONS.contains a.warnAction = true := by simpa using h3
    simp only [h1, h2, h3b] at h ⊢
    simp only [Bool.not_true, Bool.false_eq_true, if_false] at h ⊢
    simp only [Option.some.injEq] at h
    subst h
    simp [ht]

theorem dispatchTarget_cases (a : Args)
    (hk : a.user = true ∨ a.hashtag = true ∨ a.post = true) :
    ∃ p, dispatchTarget a = some p := by
  unfold dispatchTarget
  rcases hk with h | h | h <;> simp only [h, if_true]
  · simp
  · repeat' split
    all_goals simp
  · repeat' split
    all_goals simp

theorem runBody_download_events (a : Args) (e : Env) (n : Nat)
    (hn : e.download = .ok n)
    (hr : (runBody a e).2.downloadStarted = true) :
    (runBody a e).1 = .ret 0 ∧
    (runBody a e).2.events
      = (if n > 1 then [LogEvent.downloadedPosts n]
         else if n = 1 then [LogEvent.downloadedPost n] else []) := by
  rcases hq : runBody a e with ⟨r, t⟩
  rw [hq] at hr
  unfold runBody at hq
  repeat' split at hq
  all_goals injection hq with hq1 hq2
  all_goals subst hq1
  all_goals subst hq2
  all_goals simp_all [Trace.init]

theorem runBody_openUrl (a : Args) (e : Env)
    (h : (runBody a e).2.openUrl.isSome = true) :
    (runBody a e).2.openUrl = some (dest_url a e) ∧
    (runBody a e).2.openCreate = true := by
  rcases hq : runBody a e with ⟨r, t⟩
  rw [hq] at h
  unfold runBody at hq
  repeat' split at hq
  all_goals injection hq with hq1 hq2
  all_goals subst hq1
  all_goals subst hq2
  all_goals simp_all [Trace.init]

theorem main_openUrl (a : Args) (e : Env)
    (h : (main a e).openUrl.isSome = true) :
    (main a e).openUrl = some (dest_url a e) ∧
    (main a e).openCreate = true := by
  have hb := runBody_openUrl a e
  revert h
  unfold main
  generalize hq : runBody a e = rt
  rw [hq] at hb
  obtain ⟨r, t⟩ := rt
  intro h
  by_cases h1 : a.docoptFail = true
  · simp [h1, earlyResult] at h
  by_cases h2 : a.usage = true
  · simp [h1, h2, earlyResult] at h
  by_cases h3 : a.warnAction ∈ WARNING_ACTIONS
  case neg => simp [h1, h2, h3, earlyResult] at h
  have h3b : WARNING_ACTIONS.contains a.warnAction = true := by simpa using h3
  simp only [h1, h2, h3b, Bool.not_true, Bool.false_eq_true, if_false] at h ⊢
  cases r <;> simp_all

/-- C1, counterexample: the claim that `main` returns a *positive* integer on
any failure is false — a run that fails with an exception whose native error
number is 0 (line 190 returns `errno` verbatim) exits with 0. -/
theorem C1_counterexample :
    (main argsDL envErrZero).failed = true ∧
    (main argsDL envErrZero).bodyError = some (.error (some 0)) ∧
    ¬ 0 < (main argsDL envErrZero).exitCode := by decide

/-- C1 (amended): `main` returns 0 when the run fully succeeds; on failure it
returns the first structural error's native error number verbatim when that
error carries one — which may be 0 or negative — and 1 otherwise. -/
theorem C1_exit_code_contract (a : Args) (e : Env) :
    ((main a e).failed = false → (main a e).exitCode = 0) ∧
    ((main a e).failed = true →
      (main a e).exitCode =
        match (main a e).bodyError with
        | some ex => (match ex.errnoAttr with | some k => k | none => 1)
        | none => 1) := by
  have hrc : ∀ c : Int, (runBody a e).1 = .ret c → c = 0 ∨ c = 1 :=
    runBody_ret_code a e
  unfold main
  generalize hq : runBody a e = rt
  rw [hq] at hrc
  obtain ⟨r, t⟩ := rt
  by_cases h1 : a.docoptFail = true
  · simp [h1, earlyResult]
  by_cases h2 : a.usage = true
  · simp [h1, h2, earlyResult]
  by_cases h3 : a.warnAction ∈ WARNING_ACTIONS
  case neg => simp [h1, h2, h3, earlyResult]
  have h3b : WARNING_ACTIONS.contains a.warnAction = true := by simpa using h3
  simp only [h1, h2, h3b, Bool.not_true, Bool.false_eq_true, if_false]
  cases r with
  | ret c => rcases hrc c rfl with rfl | rfl <;> simp
  | raised ex => simp

/-- C1, witness: a fully successful run exits 0, and a run failing with
`errno` 5 exits 5. -/
theorem C1_exit_code_contract_witness :
    (main argsDL envOK).exitCode = 0 ∧
    (main argsDL envErrFive).exitCode = 5 :=
  ⟨(C1_exit_code_contract argsDL envOK).1 rfl,
   (C1_exit_code_contract argsDL envErrFive).2 rfl⟩

/-- C2: on a run interrupted by `KeyboardInterrupt`, `main` completes the
forced-shutdown sequence before returning: it reads `threads_count()`, and
whenever that count is nonzero it logs "Terminating N remaining workers..."
with exactly that count (and no other such line) and calls
`threads_force_join()`; the interrupted run returns a non-zero exit code. -/
theorem C2_interrupt_forced_shutdown (a : Args) (e : Env)
    (h : (main a e).bodyError = some .keyboardInterrupt) :
    (main a e).threadsCountRead = true ∧
    terminatingLines (main a e).events
      = (if e.threads_count ≠ 0
         then [LogEvent.terminatingWorkers e.threads_count] else []) ∧
    (main a e).forceJoinCalled = (e.threads_count != 0) ∧
    (main a e).exitCode ≠ 0 := by
  obtain ⟨he, htc, hf, hev⟩ := main_raised_char a e _ h
  refine ⟨htc, ?_, hf, ?_⟩
  · rw [hev]
    by_cases hc : e.threads_count = 0 <;> simp [hc, terminatingLines]
  · rw [he]
    decide

/-- C2, witness: an interrupted download with 4 registered workers reports
"Terminating 4 remaining workers...", force-joins them and exits non-zero. -/
theorem C2_interrupt_forced_shutdown_witness :
    (main argsDL envKI).threadsCountRead = true ∧
    terminatingLines (main argsDL envKI).events
      = (if envKI.threads_count ≠ 0
         then [LogEvent.terminatingWorkers envKI.threads_count] else []) ∧
    (main argsDL envKI).forceJoinCalled = (envKI.threads_count != 0) ∧
    (main argsDL envKI).exitCode ≠ 0 :=
  C2_interrupt_forced_shutdown argsDL envKI rfl

/-- C3: an invocation with a malformed `--time` value is rejected eagerly:
`main` returns 1 before the destination store is opened (`fs.open_fs` is
never called) and before any worker starts (`looter.download` is never
called). -/
theorem C3_config_error_rejected_eagerly (a : Args) (e : Env)
    (hd : a.downloadMode)
    (hk : a.user = true ∨ a.hashtag = true ∨ a.post = true)
    (hlogin : a.username = none ∨ e.loginResult = .ok ())
    (ht : a.timeArg.isSome = true) (hp : e.timeParseOk = false) :
    (main a e).exitCode = 1 ∧ (main a e).failed = true ∧
    (main a e).storeAcquired = false ∧ (main a e).openUrl = none ∧
    (main a e).downloadStarted = false := by
  obtain ⟨h1, h2, h3, h4, h5, h6⟩ := hd
  obtain ⟨⟨cls, target⟩, hp2⟩ := dispatchTarget_cases a hk
  unfold main runBody
  rcases hlogin with hl | hl <;>
    simp [h1, h2, h3, h4, h5, h6, hp2, hl, ht, hp, Trace.init]

/-- C3, witness: `instalooter user alice --time bogus:value` exits 1 with no
store opened and no download started. -/
theorem C3_config_error_rejected_eagerly_witness :
    (main argsTime envBadTime).exitCode = 1 ∧
    (main argsTime envBadTime).failed = true ∧
    (main argsTime envBadTime).storeAcquired = false ∧
    (main argsTime envBadTime).openUrl = none ∧
    (main argsTime envBadTime).downloadStarted = false :=
  C3_config_error_rejected_eagerly argsTime envBadTime
    ⟨rfl, rfl, by decide, rfl, rfl, rfl⟩ (Or.inl rfl) (Or.inl rfl) rfl rfl

/-- C4: once a download-mode run has acquired the destination store
(`fs.open_fs` succeeded), the `finally` block closes it on every exit path:
success, error and interruption alike. -/
theorem C4_store_closed_on_every_exit (a : Args) (e : Env)
    (h : (main a e).storeAcquired = true) :
    (main a e).closeCalled = true :=
  (main_close_eq a e).trans h

/-- C4, witness: a successful download run closes the store it opened. -/
theorem C4_store_closed_on_every_exit_witness :
    (main argsDL envOK).closeCalled = true :=
  C4_store_closed_on_every_exit argsDL envOK rfl

/-- C5, counterexample: the claim that every successful download run emits
one summary line for every n ≥ 0 is false — a run whose `download` returns 0
succeeds (exit code 0) but emits no summary line at all (lines 168-171 have
no branch for n = 0). -/
theorem C5_counterexample :
    (main argsDL envDLZero).exitCode = 0 ∧
    (main argsDL envDLZero).failed = false ∧
    (main argsDL envDLZero).downloadStarted = true ∧
    summaryLines (main argsDL envDLZero).events = [] := by decide

/-- C5 (amended): a successful download run returning n emits exactly one
summary line when n ≥ 1 — the plural "Downloaded n posts." exactly when
n > 1 and the singular "Downloaded 1 post." exactly when n = 1 — and no
summary line at all when n = 0. -/
theorem C5_summary_line_selection (a : Args) (e : Env) (n : Nat)
    (hn : e.download = .ok n)
    (hr : (main a e).downloadStarted = true) :
    summaryLines (main a e).events
      = (if n > 1 then [LogEvent.downloadedPosts n]
         else if n = 1 then [LogEvent.downloadedPost n] else []) := by
  have hb := runBody_download_events a e n hn
  revert hr
  unfold main
  generalize hq : runBody a e = rt
  rw [hq] at hb
  obtain ⟨r, t⟩ := rt
  intro hr
  by_cases h1 : a.docoptFail = true
  · simp [h1, earlyResult] at hr
  by_cases h2 : a.usage = true
  · simp [h1, h2, earlyResult] at hr
  by_cases h3 : a.warnAction ∈ WARNING_ACTIONS
  case neg => simp [h1, h2, h3, earlyResult] at hr
  have h3b : WARNING_ACTIONS.contains a.warnAction = true := by simpa using h3
  simp only [h1, h2, h3b, Bool.not_true, Bool.false_eq_true, if_false] at hr ⊢
  cases r with
  | ret c =>
    simp only at hr
    obtain ⟨-, hev⟩ := hb hr
    simp only at hev
    simp only [hev]
    repeat' split
    all_goals simp [summaryLines]
  | raised ex =>
    simp only at hr
    obtain ⟨hcontra, -⟩ := hb hr
    simp at hcontra

/-- C5, witness: a run downloading two posts emits exactly the plural
summary line "Downloaded 2 posts.". -/
theorem C5_summary_line_selection_witness :
    summaryLines (main argsDL envDLTwo).events = [LogEvent.downloadedPosts 2] := by
  have h := C5_summary_line_selection argsDL envDLTwo 2 rfl rfl
  simpa using h

/-- C6: when `--jobs` is omitted the looter is constructed with a worker-pool
concurrency of exactly 16, and when it is given the pool size equals its
integer value. -/
theorem C6_default_concurrency_16 (a : Args) (e : Env) (hd : a.downloadMode)
    (hk : a.user = true ∨ a.hashtag = true ∨ a.post = true) :
    (a.jobs = none → ∃ l, (main a e).looter = some l ∧ l.jobs = 16) ∧
    (∀ j : Int, a.jobs = some j →
      ∃ l, (main a e).looter = some l ∧ l.jobs = j) := by
  obtain ⟨p, hp2⟩ := dispatchTarget_cases a hk
  have hl := main_looter a e hd
  rw [hp2] at hl
  constructor
  · intro hj
    exact ⟨_, by simpa using hl, by simp [mkLooter, hj]⟩
  · intro j hj
    exact ⟨_, by simpa using hl, by simp [mkLooter, hj]⟩

/-- C6, witness: with `--jobs` omitted the looter gets 16 jobs; with
`--jobs 4` it gets 4. -/
theorem C6_default_concurrency_16_witness :
    (∃ l, (main argsDL envOK).looter = some l ∧ l.jobs = 16) ∧
    (∃ l, (main argsJobs envOK).looter = some l ∧ l.jobs = 4) :=
  ⟨(C6_default_concurrency_16 argsDL envOK ⟨rfl, rfl, by decide, rfl, rfl, rfl⟩
      (Or.inl rfl)).1 rfl,
   (C6_default_concurrency_16 argsJobs envOK ⟨rfl, rfl, by decide, rfl, rfl, rfl⟩
      (Or.inl rfl)).2 4 rfl⟩

/-- C7: the target-kind dispatch is fixed and performed once at looter
construction: `user` selects `ProfileLooter` on `<profile>`, otherwise
`hashtag` selects `HashtagLooter` on `<hashtag>`, otherwise `post` selects
`PostLooter` on `<post_token>`; with no kind set, no looter is constructed
and `NotImplementedError` is raised, so no other kind is accepted. -/
theorem C7_target_dispatch (a : Args) (e : Env) (hd : a.downloadMode) :
    (a.user = true →
      (main a e).looter = some (mkLooter a .ProfileLooter a.profile)) ∧
    (a.user = false → a.hashtag = true →
      (main a e).looter = some (mkLooter a .HashtagLooter a.hashtagName)) ∧
    (a.user = false → a.hashtag = false → a.post = true →
      (main a e).looter = some (mkLooter a .PostLooter a.post_token)) ∧
    (a.user = false → a.hashtag = false → a.post = false →
      (main a e).looter = none ∧
      (main a e).bodyError = some (.error none) ∧
      (main a e).exitCode = 1) := by
  obtain ⟨h1, h2, h3, h4, h5, h6⟩ := hd
  have hl := main_looter a e ⟨h1, h2, h3, h4, h5, h6⟩
  refine ⟨?_, ?_, ?_, ?_⟩
  · intro hu
    rw [hl]
    simp [dispatchTarget, hu]
  · intro hu hh
    rw [hl]
    simp [dispatchTarget, hu, hh]
  · intro hu hh hp2
    rw [hl]
    simp [dispatchTarget, hu, hh, hp2]
  · intro hu hh hp2
    have hb : runBody a e = (.raised (.error none), Trace.init) := by
      unfold runBody
      simp [h4, h5, h6, dispatchTarget, hu, hh, hp2]
    refine ⟨by rw [hl]; simp [dispatchTarget, hu, hh, hp2], ?_, ?_⟩ <;>
      · unfold main
        simp [h1, h2, h3, hb, Exc.errnoAttr]

/-- C7, witness: `user alice` selects `ProfileLooter` on "alice" and
`hashtag cats` selects `HashtagLooter` on "cats". -/
theorem C7_target_dispatch_witness :
    (main argsDL envOK).looter
      = some (mkLooter argsDL .ProfileLooter argsDL.profile) ∧
    (main argsHashtag envOK).looter
      = some (mkLooter argsHashtag .HashtagLooter argsHashtag.hashtagName) :=
  ⟨(C7_target_dispatch argsDL envOK ⟨rfl, rfl, by decide, rfl, rfl, rfl⟩).1 rfl,
   (C7_target_dispatch argsHashtag envOK
      ⟨rfl, rfl, by decide, rfl, rfl, rfl⟩).2.1 rfl rfl⟩

/-- C8: a run failing with an exception whose `errno` attribute is not `None`
returns exactly that errno value unchanged — including 0 or a negative
value — as the process exit code. -/
theorem C8_errno_passthrough (a : Args) (e : Env) (k : Int)
    (h : (main a e).bodyError = some (.error (some k))) :
    (main a e).exitCode = k := by
  have he := (main_raised_char a e _ h).1
  simpa [Exc.errnoAttr] using he

/-- C8, witness: a failing run with `errno` 0 exits 0 and one with `errno`
-7 exits -7. -/
theorem C8_errno_passthrough_witness :
    (main argsDL envErrZero).exitCode = 0 ∧
    (main argsDL envErrNeg).exitCode = -7 :=
  ⟨C8_errno_passthrough argsDL envErrZero 0 rfl,
   C8_errno_passthrough argsDL envErrNeg (-7) rfl⟩

/-- C9, counterexample: "main returns 0 regardless of whether a stored
session exists" is false — under `instalooter logout -W error` with no cookie
file, the `simplefilter` of line 85 turns the line-114 warning into a raised
`UserWarning`, the handler catches it and main returns 1; likewise a raising
`_logout()` makes the cookie-present case return 1. -/
theorem C9_counterexample :
    ((main argsLogoutWError envNoCookie).exitCode = 1 ∧
     (main argsLogoutWError envNoCookie).failed = true) ∧
    ((main argsLogout envLogoutFail).exitCode = 1 ∧
     (main argsLogout envLogoutFail).failed = true) := by decide

/-- C9 (amended): the logout command returns 0 whenever the warning action
does not promote warnings to errors (`-W` is not `"error"`) and the logout
operation itself does not raise: when the cookie file exists the logout is
performed and a success message logged, and when it does not exist only a
warning is emitted — a missing session is then never an error. -/
theorem C9_logout_returns_zero (a : Args) (e : Env)
    (h1 : a.docoptFail = false) (h2 : a.usage = false)
    (h3 : a.warnAction ∈ WARNING_ACTIONS) (h4 : a.batch = false)
    (h5 : a.login = false) (h6 : a.logout = true)
    (h7 : a.warnAction ≠ "error") (h8 : e.logoutResult = .ok ()) :
    (main a e).exitCode = 0 ∧ (main a e).failed = false ∧
    (main a e).events
      = (if e.cookieFileExists then [LogEvent.loggedOut]
         else [LogEvent.cookieWarning]) := by
  unfold main runBody
  by_cases hc : e.cookieFileExists = true <;>
    simp [h1, h2, h3, h4, h5, h6, h7, h8, hc, Trace.init]

/-- C9, witness: logout exits 0 both with and without a stored cookie file,
logging success in the first case and a warning in the second. -/
theorem C9_logout_returns_zero_witness :
    ((main argsLogout envOK).exitCode = 0 ∧
     (main argsLogout envOK).failed = false ∧
     (main argsLogout envOK).events
       = (if envOK.cookieFileExists then [LogEvent.loggedOut]
          else [LogEvent.cookieWarning])) ∧
    ((main argsLogout envNoCookie).exitCode = 0 ∧
     (main argsLogout envNoCookie).failed = false ∧
     (main argsLogout envNoCookie).events
       = (if envNoCookie.cookieFileExists then [LogEvent.loggedOut]
          else [LogEvent.cookieWarning])) :=
  ⟨C9_logout_returns_zero argsLogout envOK rfl rfl (by decide) rfl rfl rfl
     (by decide) rfl,
   C9_logout_returns_zero argsLogout envNoCookie rfl rfl (by decide) rfl rfl
     rfl (by decide) rfl⟩

/-- C10: whenever the destination store is opened, it is opened with
`create=True`, and when the `<directory>` argument is absent or empty the
destination URL is the process's current working directory. -/
theorem C10_destination_cwd_and_create (a : Args) (e : Env)
    (h : (main a e).openUrl.isSome = true) :
    ((a.directory = none ∨ a.directory = some "") →
      (main a e).openUrl = some e.cwd) ∧
    (main a e).openCreate = true := by
  obtain ⟨hu, hc⟩ := main_openUrl a e h
  refine ⟨?_, hc⟩
  intro hdir
  rw [hu]
  rcases hdir with hdir | hdir <;> simp [dest_url, hdir]

/-- C10, witness: with `<directory>` absent (and likewise empty) the store
opens at the current working directory with `create=True`. -/
theorem C10_destination_cwd_and_create_witness :
    ((main argsDL envOK).openUrl = some envOK.cwd ∧
     (main argsDL envOK).openCreate = true) ∧
    ((main argsEmptyDir envOK).openUrl = some envOK.cwd ∧
     (main argsEmptyDir envOK).openCreate = true) :=
  ⟨⟨(C10_destination_cwd_and_create argsDL envOK rfl).1 (Or.inl rfl),
    (C10_destination_cwd_and_create argsDL envOK rfl).2⟩,
   ⟨(C10_destination_cwd_and_create argsEmptyDir envOK rfl).1 (Or.inr rfl),
    (C10_destination_cwd_and_create argsEmptyDir envOK rfl).2⟩⟩

end Instalooter
